import Mathlib

/-!
Shallow embedding of the WebQualityAnalyzer content-script analysis engine
(`src/content/content.ts`): the three analyzers `analyzeAccessibility`,
`analyzeSEO`, `analyzePerformance` and the aggregator `performQualityAnalysis`.

The DOM is modelled as a read-only snapshot (`Document`) holding exactly the
collections the analyzers query (`querySelectorAll` results in document
order).  Ambient globals (current hostname, URL, clock) are passed as
explicit parameters.  JavaScript attribute reads (`getAttribute`) are
`Option String` (`none` = attribute absent); JS truthiness of such a value
(`null` and `""` are falsy) is the `truthy` helper.  The IDL reflections
`img.alt` / `img.src` are plain strings that are `""` when the attribute is
absent, matching the DOM IDL behaviour the code relies on.
-/

namespace WebQualityAnalyzer

/-- Severity of an issue: `'high' | 'medium' | 'low'`. -/
inductive Severity where
  | high
  | medium
  | low
deriving DecidableEq, Repr

/-- One detected problem (interface `Issue` in `content.ts`). -/
structure Issue where
  type : String
  message : String
  severity : Severity
  element : Option String
deriving DecidableEq, Repr

/-- Output of one analyzer (interface `CategoryResult`). -/
structure CategoryResult where
  score : Nat
  issues : List Issue
  suggestions : List String
deriving DecidableEq, Repr

/-- The `pageInfo` block of an `AnalysisResult`. -/
structure PageInfo where
  url : String
  title : String
  timestamp : String
deriving DecidableEq, Repr

/-- Top-level report (interface `AnalysisResult`). -/
structure AnalysisResult where
  score : Nat
  pageInfo : PageInfo
  accessibility : CategoryResult
  seo : CategoryResult
  performance : CategoryResult
deriving DecidableEq, Repr

/-- An `img` element as the analyzers read it: IDL reflections `alt` and
`src` (empty string when the attribute is absent or the URL unavailable),
intrinsic dimensions, and the raw `loading` attribute. -/
structure Img where
  alt : String
  src : String
  naturalWidth : Nat
  naturalHeight : Nat
  loading : Option String
deriving DecidableEq, Repr

/-- A form control matched by the selector
`input[type="text"], input[type="email"], input[type="password"], textarea, select`:
its tag name and the raw `id` and `aria-label` attributes. -/
structure FormInput where
  tagName : String
  id : Option String
  ariaLabel : Option String
deriving DecidableEq, Repr

/-- A `link` element: raw `href` and `rel` attributes. -/
structure LinkEl where
  href : Option String
  rel : Option String
deriving DecidableEq, Repr

/-- An `a` element: raw `href` and `rel` attributes. -/
structure Anchor where
  href : Option String
  rel : Option String
deriving DecidableEq, Repr

/-- Read-only document snapshot: the query results the engine inspects, each
in document order.  `headings` holds the numeric levels of all `h1`–`h6`
elements; `inlineStyles` holds the `style` attribute value of every element
carrying one; `interactiveCount` counts
`button, a, input, select, textarea` matches; `metaDescription` is the first
`meta[name="description"]` element's `content` attribute (outer `none` =
no such element); `labelFors` holds the `for` attribute of every label. -/
structure Document where
  title : String
  images : List Img
  formInputs : List FormInput
  labelFors : List String
  inlineStyles : List String
  interactiveCount : Nat
  headings : List Nat
  metaDescription : Option (Option String)
  hasOgTitle : Bool
  hasOgDescription : Bool
  scripts : List (Option String)
  links : List LinkEl
  anchors : List Anchor
deriving DecidableEq, Repr

/-- JS truthiness of a `getAttribute` result: `null` and `""` are falsy. -/
def truthy : Option String → Bool
  | none => false
  | some s => s ≠ ""

/-- JS `x || d` for a possibly-undefined, possibly-empty string `x`. -/
def jsOr : Option String → String → String
  | none, d => d
  | some s, d => if s = "" then d else s

/-- JS `s.trim()`: strip leading and trailing whitespace. -/
def jsTrim (s : String) : String :=
  String.mk (((s.data.dropWhile Char.isWhitespace).reverse.dropWhile Char.isWhitespace).reverse)

/-- Tests that `s` starts with `p` (JS `startsWith` / CSS `^=` on the value). -/
def strStartsWith (s p : String) : Bool :=
  p.data.isPrefixOf s.data

/-- CSS attribute selector `[attr^="p"]`: attribute present and starting
with `p`. -/
def attrStartsWith (a : Option String) (p : String) : Bool :=
  match a with
  | none => false
  | some s => strStartsWith s p

/-- Helper for `hasSubstr`: does `pat` occur in the character list? -/
def hasSubstrAux (pat : List Char) : List Char → Bool
  | [] => pat.isEmpty
  | c :: rest => pat.isPrefixOf (c :: rest) || hasSubstrAux pat rest

/-- JS `s.includes(pat)`: substring containment (true when `pat` is empty). -/
def hasSubstr (s pat : String) : Bool :=
  hasSubstrAux pat.data s.data

/-- Issues, suggestions and score deduction produced by one rule block. -/
structure RuleResult where
  issues : List Issue
  suggestions : List String
  deduction : Nat
deriving DecidableEq, Repr

/-- The empty rule outcome (rule condition not met). -/
def RuleResult.none : RuleResult := ⟨[], [], 0⟩

/-! ## Accessibility analyzer -/

/-- Source: `Array.from(images).filter((img) => !img.alt || img.alt.trim() === '')`. -/
def imagesWithoutAlt (doc : Document) : List Img :=
  doc.images.filter fun img => img.alt = "" || jsTrim img.alt = ""

/-- Alt-text rule of `analyzeAccessibility` (lines 67–81). -/
def altRule (doc : Document) : RuleResult :=
  let w := imagesWithoutAlt doc
  if w.length > 0 then
    { issues := [{ type := "Missing Alt Text"
                 , message := toString w.length ++ " images missing alt text"
                 , severity := .high
                 , element := some (jsOr (w.head?.map Img.src) "Unknown image") }]
    , suggestions := ["Add descriptive alt text to all images for screen readers"]
    , deduction := min 25 (w.length * 3) }
  else .none

/-- Filter of form controls lacking both a matching `label[for=id]` and a
truthy `aria-label` (lines 84–92). -/
def inputsWithoutLabels (doc : Document) : List FormInput :=
  doc.formInputs.filter fun input =>
    let hasLabel := truthy input.id && doc.labelFors.contains (input.id.getD "")
    !hasLabel && !truthy input.ariaLabel

/-- Form-label rule of `analyzeAccessibility` (lines 93–101). -/
def labelRule (doc : Document) : RuleResult :=
  let w := inputsWithoutLabels doc
  if w.length > 0 then
    { issues := [{ type := "Form Accessibility"
                 , message := toString w.length ++ " form inputs without labels"
                 , severity := .high
                 , element := some ((w.head?.map FormInput.tagName).getD "undefined" ++ " element") }]
    , suggestions := ["Add labels or aria-label attributes to all form inputs"]
    , deduction := min 20 (w.length * 4) }
  else .none

/-- Color-contrast advisory: fires when any `[style*="color"]` element
exists (lines 104–107). -/
def colorSuggestions (doc : Document) : List String :=
  if (doc.inlineStyles.filter fun s => hasSubstr s "color").length > 0 then
    ["Verify color contrast ratios meet WCAG guidelines (4.5:1 for normal text)"]
  else []

/-- Focus-indicator advisory: fires when any interactive element exists
(lines 110–113). -/
def focusSuggestions (doc : Document) : List String :=
  if doc.interactiveCount > 0 then
    ["Ensure all interactive elements have visible focus indicators"]
  else []

/-- One step of the `forEach` walk over heading levels: the state is
`(hasSkippedLevel, previousLevel)`. -/
def skipStep (acc : Bool × Nat) (level : Nat) : Bool × Nat :=
  (acc.1 || decide (level > acc.2 + 1), level)

/-- The `forEach` walk over heading levels with `previousLevel` starting at
0: true when some level exceeds the previous value by more than 1. -/
def hasSkippedLevel (levels : List Nat) : Bool :=
  (levels.foldl skipStep (false, 0)).1

/-- Heading-hierarchy rule of `analyzeAccessibility` (lines 116–139). -/
def headingRule (doc : Document) : RuleResult :=
  if doc.headings.length > 0 && hasSkippedLevel doc.headings then
    { issues := [{ type := "Heading Hierarchy"
                 , message := "Heading levels are not in proper order"
                 , severity := .medium
                 , element := Option.none }]
    , suggestions := ["Use heading levels in sequential order (h1, h2, h3, etc.)"]
    , deduction := 10 }
  else .none

/-- Function `analyzeAccessibility` (lines 62–142): runs the rules in source order,
accumulates deductions from 100 and clamps with `Math.max(0, score)`. -/
def analyzeAccessibility (doc : Document) : CategoryResult :=
  let alt := altRule doc
  let labels := labelRule doc
  let heading := headingRule doc
  { score := ((100 : Int) - (alt.deduction + labels.deduction + heading.deduction : Nat)).toNat
  , issues := alt.issues ++ labels.issues ++ heading.issues
  , suggestions := alt.suggestions ++ labels.suggestions ++ colorSuggestions doc
      ++ focusSuggestions doc ++ heading.suggestions }

/-! ## SEO analyzer -/

/-- Page-title rule of `analyzeSEO` (lines 149–175). -/
def titleRule (doc : Document) : RuleResult :=
  let title := doc.title
  if title = "" || jsTrim title = "" then
    { issues := [{ type := "Page Title", message := "Page has no title"
                 , severity := .high, element := Option.none }]
    , suggestions := ["Add a descriptive page title (50-60 characters recommended)"]
    , deduction := 25 }
  else if title.length < 10 then
    { issues := [{ type := "Page Title", message := "Page title is too short"
                 , severity := .medium, element := Option.none }]
    , suggestions := ["Make page title more descriptive (50-60 characters recommended)"]
    , deduction := 15 }
  else if title.length > 60 then
    { issues := [{ type := "Page Title", message := "Page title is too long"
                 , severity := .low, element := Option.none }]
    , suggestions := ["Shorten page title to 50-60 characters for better search results"]
    , deduction := 5 }
  else .none

/-- Outcome of the missing-meta-description branch (shared by "no element"
and "element without truthy content"). -/
def metaMissing : RuleResult :=
  { issues := [{ type := "Meta Description", message := "Missing meta description"
               , severity := .high, element := Option.none }]
  , suggestions := ["Add a meta description (150-160 characters recommended)"]
  , deduction := 20 }

/-- Meta-description rule of `analyzeSEO` (lines 177–206): the guard is
`!metaDescription || !metaDescription.getAttribute('content')`, so an
absent element, an absent `content` attribute and an empty `content`
attribute all take the missing branch. -/
def metaRule (doc : Document) : RuleResult :=
  match doc.metaDescription with
  | Option.none => metaMissing
  | some contentAttr =>
    if !truthy contentAttr then metaMissing
    else
      let content := contentAttr.getD ""
      if content.length < 120 then
        { issues := [{ type := "Meta Description", message := "Meta description is too short"
                     , severity := .medium, element := Option.none }]
        , suggestions := ["Expand meta description to 150-160 characters"]
        , deduction := 10 }
      else if content.length > 160 then
        { issues := [{ type := "Meta Description", message := "Meta description is too long"
                     , severity := .low, element := Option.none }]
        , suggestions := ["Shorten meta description to 150-160 characters"]
        , deduction := 5 }
      else .none

/-- H1-count rule of `analyzeSEO` (lines 209–226):
`document.querySelectorAll('h1').length` is the number of level-1 entries
of the heading list. -/
def h1Rule (doc : Document) : RuleResult :=
  let h1Count := doc.headings.count 1
  if h1Count = 0 then
    { issues := [{ type := "H1 Heading", message := "No H1 heading found"
                 , severity := .high, element := Option.none }]
    , suggestions := ["Add a main H1 heading to improve SEO and accessibility"]
    , deduction := 20 }
  else if h1Count > 1 then
    { issues := [{ type := "H1 Heading"
                 , message := "Multiple H1 headings found (" ++ toString h1Count ++ ")"
                 , severity := .medium, element := Option.none }]
    , suggestions := ["Use only one H1 heading per page"]
    , deduction := 15 }
  else .none

/-- Canonical-URL advisory: fires when no `link[rel="canonical"]` exists
(lines 229–232). -/
def canonicalSuggestions (doc : Document) : List String :=
  if !(doc.links.any fun l => l.rel = some "canonical") then
    ["Consider adding a canonical URL to prevent duplicate content issues"]
  else []

/-- Open-Graph advisory: fires when `og:title` or `og:description` is
missing (lines 235–239). -/
def ogSuggestions (doc : Document) : List String :=
  if !doc.hasOgTitle || !doc.hasOgDescription then
    ["Add Open Graph meta tags for better social media sharing"]
  else []

/-- Function `analyzeSEO` (lines 144–242). -/
def analyzeSEO (doc : Document) : CategoryResult :=
  let title := titleRule doc
  let meta := metaRule doc
  let h1 := h1Rule doc
  { score := ((100 : Int) - (title.deduction + meta.deduction + h1.deduction : Nat)).toNat
  , issues := title.issues ++ meta.issues ++ h1.issues
  , suggestions := title.suggestions ++ meta.suggestions ++ h1.suggestions
      ++ canonicalSuggestions doc ++ ogSuggestions doc }

/-! ## Performance analyzer -/

/-- Images whose intrinsic size exceeds 1920×1080 (lines 250–252). -/
def largeImages (doc : Document) : List Img :=
  doc.images.filter fun img => img.naturalWidth > 1920 || img.naturalHeight > 1080

/-- Oversized-image rule of `analyzePerformance` (lines 253–262). -/
def largeImagesRule (doc : Document) : RuleResult :=
  let w := largeImages doc
  if w.length > 0 then
    { issues := [{ type := "Image Optimization"
                 , message := toString w.length ++ " images larger than 1920x1080"
                 , severity := .medium
                 , element := some (jsOr (w.head?.map Img.src) "Unknown image") }]
    , suggestions := ["Optimize large images and use appropriate formats (WebP, AVIF)"]
    , deduction := min 20 (w.length * 3) }
  else .none

/-- Source: `Array.from(images).filter(img => !img.getAttribute('loading'))`:
images whose `loading` attribute is absent or empty. -/
def imagesWithoutLoading (doc : Document) : List Img :=
  doc.images.filter fun img => !truthy img.loading

/-- Lazy-loading rule of `analyzePerformance` (lines 265–275). -/
def lazyRule (doc : Document) : RuleResult :=
  let w := imagesWithoutLoading doc
  if w.length > 3 then
    { issues := [{ type := "Lazy Loading"
                 , message := toString w.length ++ " images without lazy loading"
                 , severity := .low, element := Option.none }]
    , suggestions := ["Add loading=\"lazy\" to images below the fold"]
    , deduction := 10 }
  else .none

/-- Count of `script[src^="http"]` plus `link[href^="http"]` elements (lines 278–280). -/
def totalExternal (doc : Document) : Nat :=
  (doc.scripts.filter fun src => attrStartsWith src "http").length
    + (doc.links.filter fun l => attrStartsWith l.href "http").length

/-- External-resources rule of `analyzePerformance` (lines 282–290). -/
def externalResourcesRule (doc : Document) : RuleResult :=
  let total := totalExternal doc
  if total > 10 then
    { issues := [{ type := "External Resources"
                 , message := toString total ++ " external resources detected"
                 , severity := .medium, element := Option.none }]
    , suggestions := ["Consider bundling or reducing external resources to improve load times"]
    , deduction := min 15 ((total - 10) * 2) }
  else .none

/-- Inline-styles rule of `analyzePerformance` (lines 293–302). -/
def inlineStylesRule (doc : Document) : RuleResult :=
  if doc.inlineStyles.length > 20 then
    { issues := [{ type := "Inline Styles"
                 , message := toString doc.inlineStyles.length ++ " elements with inline styles"
                 , severity := .low, element := Option.none }]
    , suggestions := ["Move inline styles to CSS files for better caching"]
    , deduction := 5 }
  else .none

/-- The `a[href^="http"]` anchors whose href does not contain the current
hostname as a substring (lines 305–310). -/
def externalLinks (doc : Document) (hostname : String) : List Anchor :=
  (doc.anchors.filter fun a => attrStartsWith a.href "http").filter
    fun link =>
      let href := link.href
      truthy href && !hasSubstr (href.getD "") hostname

/-- External anchors with no truthy `rel` attribute (lines 311–313). -/
def externalLinksWithoutRel (doc : Document) (hostname : String) : List Anchor :=
  (externalLinks doc hostname).filter fun link => !truthy link.rel

/-- External-links rule of `analyzePerformance` (lines 314–322). -/
def externalLinksRule (doc : Document) (hostname : String) : RuleResult :=
  let w := externalLinksWithoutRel doc hostname
  if w.length > 0 then
    { issues := [{ type := "External Links"
                 , message := toString w.length ++ " external links without rel attributes"
                 , severity := .low, element := Option.none }]
    , suggestions := ["Add rel=\"noopener noreferrer\" to external links for security and performance"]
    , deduction := min 10 w.length }
  else .none

/-- Function `analyzePerformance` (lines 244–330), with the ambient
`window.location.hostname` as an explicit parameter.  The three boilerplate
suggestions are appended unconditionally at the end. -/
def analyzePerformance (doc : Document) (hostname : String) : CategoryResult :=
  let large := largeImagesRule doc
  let lazy := lazyRule doc
  let ext := externalResourcesRule doc
  let inl := inlineStylesRule doc
  let links := externalLinksRule doc hostname
  { score := ((100 : Int)
      - (large.deduction + lazy.deduction + ext.deduction + inl.deduction
          + links.deduction : Nat)).toNat
  , issues := large.issues ++ lazy.issues ++ ext.issues ++ inl.issues ++ links.issues
  , suggestions := large.suggestions ++ lazy.suggestions ++ ext.suggestions
      ++ inl.suggestions ++ links.suggestions
      ++ [ "Consider using a Content Delivery Network (CDN) for static assets"
         , "Enable gzip compression on your server"
         , "Minify CSS and JavaScript files" ] }

/-! ## Aggregator -/

/-- Aggregation `Math.round((a + s + p) / 3)` for non-negative integer inputs:
`Math.round(x) = ⌊x + 1/2⌋`, and `n/3 + 1/2 = (2n+3)/6`, so the rounded
mean is the natural-number quotient `(2n+3)/6`. -/
def overallScore (a s p : Nat) : Nat :=
  (2 * (a + s + p) + 3) / 6

/-- Function `performQualityAnalysis` (lines 39–60), with the ambient hostname, URL
and current time (`new Date().toISOString()`) as explicit parameters. -/
def performQualityAnalysis (doc : Document) (hostname url timestamp : String) :
    AnalysisResult :=
  let accessibility := analyzeAccessibility doc
  let seo := analyzeSEO doc
  let performance := analyzePerformance doc hostname
  { score := overallScore accessibility.score seo.score performance.score
  , pageInfo := { url := url, title := doc.title, timestamp := timestamp }
  , accessibility := accessibility
  , seo := seo
  , performance := performance }

/-! ## Concrete documents used as witnesses and counterexamples -/

/-- A snapshot on which every rule is silent: valid title, 130-character
meta description, a single `h1`, Open Graph tags present, no images,
inputs, styles, scripts or anchors. -/
def cleanDoc : Document where
  title := "A good page title"
  images := []
  formInputs := []
  labelFors := []
  inlineStyles := []
  interactiveCount := 0
  headings := [1]
  metaDescription := some (some (String.mk (List.replicate 130 'x')))
  hasOgTitle := true
  hasOgDescription := true
  scripts := []
  links := []
  anchors := []

/-- An image with no alt attribute (IDL `alt` is `""`), no usable `src`,
and `loading="lazy"`. -/
def noAltImg : Img := ⟨"", "", 0, 0, some "lazy"⟩

/-- Variant of `cleanDoc` with two images missing alt text. -/
def altDoc2 : Document := { cleanDoc with images := List.replicate 2 noAltImg }

/-- Variant of `cleanDoc` with ten images missing alt text. -/
def altDoc10 : Document := { cleanDoc with images := List.replicate 10 noAltImg }

/-- Variant of `cleanDoc` whose meta description element carries `content=""`. -/
def emptyContentMetaDoc : Document :=
  { cleanDoc with metaDescription := some (some "") }

/-- Variant of `cleanDoc` with four images whose `loading` attribute is present but
empty. -/
def emptyLoadingDoc : Document :=
  { cleanDoc with images := List.replicate 4 ⟨"a fine alt text", "", 0, 0, some ""⟩ }

/-- Variant of `cleanDoc` whose only heading is an `h2`. -/
def loneH2Doc : Document := { cleanDoc with headings := [2] }

/-- Variant of `cleanDoc` with one rel-less anchor to a foreign host whose URL happens
to contain the current hostname as a query-string substring. -/
def substrAnchorDoc : Document :=
  { cleanDoc with anchors := [⟨some "http://evil.example.net/?ref=example.com", Option.none⟩] }

/-- Variant of `cleanDoc` with one anchor to a foreign host carrying an empty `rel`
attribute. -/
def emptyRelAnchorDoc : Document :=
  { cleanDoc with anchors := [⟨some "http://other.example.net/x", some ""⟩] }

/-- Variant of `cleanDoc` with a title of `n` copies of `'T'`. -/
def titleDoc (n : Nat) : Document :=
  { cleanDoc with title := String.mk (List.replicate n 'T') }

/-- Variant of `cleanDoc` with a meta description of `n` copies of `'x'`. -/
def metaDoc (n : Nat) : Document :=
  { cleanDoc with metaDescription := some (some (String.mk (List.replicate n 'x'))) }

/-- Variant of `cleanDoc` with no `meta[name="description"]` element at all. -/
def noMetaDoc : Document := { cleanDoc with metaDescription := Option.none }

/-- Variant of `cleanDoc` whose meta description element has no `content` attribute. -/
def noContentMetaDoc : Document := { cleanDoc with metaDescription := some Option.none }

/-- Variant of `cleanDoc` with `k` images carrying no `loading` attribute. -/
def lazyDoc (k : Nat) : Document :=
  { cleanDoc with images := List.replicate k ⟨"a fine alt text", "", 0, 0, Option.none⟩ }

/-- Variant of `cleanDoc` with `k` rel-less anchors to a foreign host. -/
def extLinksDoc (k : Nat) : Document :=
  { cleanDoc with anchors := List.replicate k ⟨some "http://other.example.net/x", Option.none⟩ }

/-- Variant of `cleanDoc` with the given heading levels (in document order). -/
def headingsDoc (levels : List Nat) : Document :=
  { cleanDoc with headings := levels }

set_option maxRecDepth 100000

/-! ## Helper lemmas: per-rule deduction caps -/

theorem altRule_deduction_le (doc : Document) : (altRule doc).deduction ≤ 25 := by
  unfold altRule
  dsimp only
  split <;> dsimp [RuleResult.none] <;> omega

theorem labelRule_deduction_le (doc : Document) : (labelRule doc).deduction ≤ 20 := by
  unfold labelRule
  dsimp only
  split <;> dsimp [RuleResult.none] <;> omega

theorem headingRule_deduction_le (doc : Document) : (headingRule doc).deduction ≤ 10 := by
  unfold headingRule
  split <;> dsimp [RuleResult.none] <;> omega

theorem titleRule_deduction_le (doc : Document) : (titleRule doc).deduction ≤ 25 := by
  unfold titleRule
  dsimp only
  split_ifs <;> dsimp [RuleResult.none] <;> omega

theorem metaRule_deduction_le (doc : Document) : (metaRule doc).deduction ≤ 20 := by
  unfold metaRule
  split <;> (try dsimp only) <;> (try split_ifs) <;> dsimp [metaMissing, RuleResult.none] <;> omega

theorem h1Rule_deduction_le (doc : Document) : (h1Rule doc).deduction ≤ 20 := by
  unfold h1Rule
  dsimp only
  split_ifs <;> dsimp [RuleResult.none] <;> omega

theorem largeImagesRule_deduction_le (doc : Document) :
    (largeImagesRule doc).deduction ≤ 20 := by
  unfold largeImagesRule
  dsimp only
  split <;> dsimp [RuleResult.none] <;> omega

theorem lazyRule_deduction_le (doc : Document) : (lazyRule doc).deduction ≤ 10 := by
  unfold lazyRule
  dsimp only
  split <;> dsimp [RuleResult.none] <;> omega

theorem externalResourcesRule_deduction_le (doc : Document) :
    (externalResourcesRule doc).deduction ≤ 15 := by
  unfold externalResourcesRule
  dsimp only
  split <;> dsimp [RuleResult.none] <;> omega

theorem inlineStylesRule_deduction_le (doc : Document) :
    (inlineStylesRule doc).deduction ≤ 5 := by
  unfold inlineStylesRule
  split <;> dsimp [RuleResult.none] <;> omega

theorem externalLinksRule_deduction_le (doc : Document) (hostname : String) :
    (externalLinksRule doc hostname).deduction ≤ 10 := by
  unfold externalLinksRule
  dsimp only
  split <;> dsimp [RuleResult.none] <;> omega

/-! ## Helper lemmas: score shape of each analyzer -/

theorem analyzeAccessibility_score (doc : Document) :
    (analyzeAccessibility doc).score
      = ((100 : Int) - ((altRule doc).deduction + (labelRule doc).deduction
          + (headingRule doc).deduction : Nat)).toNat := rfl

theorem analyzeSEO_score (doc : Document) :
    (analyzeSEO doc).score
      = ((100 : Int) - ((titleRule doc).deduction + (metaRule doc).deduction
          + (h1Rule doc).deduction : Nat)).toNat := rfl

theorem analyzePerformance_score (doc : Document) (hostname : String) :
    (analyzePerformance doc hostname).score
      = ((100 : Int) - ((largeImagesRule doc).deduction + (lazyRule doc).deduction
          + (externalResourcesRule doc).deduction + (inlineStylesRule doc).deduction
          + (externalLinksRule doc hostname).deduction : Nat)).toNat := rfl

/-! ## Helper lemmas: score bounds -/

theorem analyzeAccessibility_score_bounds (doc : Document) :
    45 ≤ (analyzeAccessibility doc).score ∧ (analyzeAccessibility doc).score ≤ 100 := by
  rw [analyzeAccessibility_score]
  have h1 := altRule_deduction_le doc
  have h2 := labelRule_deduction_le doc
  have h3 := headingRule_deduction_le doc
  omega

theorem analyzeSEO_score_bounds (doc : Document) :
    35 ≤ (analyzeSEO doc).score ∧ (analyzeSEO doc).score ≤ 100 := by
  rw [analyzeSEO_score]
  have h1 := titleRule_deduction_le doc
  have h2 := metaRule_deduction_le doc
  have h3 := h1Rule_deduction_le doc
  omega

theorem analyzePerformance_score_bounds (doc : Document) (hostname : String) :
    40 ≤ (analyzePerformance doc hostname).score
      ∧ (analyzePerformance doc hostname).score ≤ 100 := by
  rw [analyzePerformance_score]
  have h1 := largeImagesRule_deduction_le doc
  have h2 := lazyRule_deduction_le doc
  have h3 := externalResourcesRule_deduction_le doc
  have h4 := inlineStylesRule_deduction_le doc
  have h5 := externalLinksRule_deduction_le doc hostname
  omega

/-- Rounding `Math.round(n / 3)` on a natural `n` agrees with the mathematical
round-half-up function: `⌊n/3 + 1/2⌋ = (2n+3)/6`. -/
theorem overallScore_eq_round (a s p : Nat) :
    (overallScore a s p : ℤ) = round (((a : ℚ) + s + p) / 3) := by
  unfold overallScore
  rw [round_eq]
  have hq : ((a : ℚ) + s + p) / 3 + 1 / 2
      = ((2 * (a + s + p) + 3 : ℕ) : ℚ) / ((6 : ℕ) : ℚ) := by
    push_cast
    ring
  rw [hq]
  have h0 : (0 : ℚ) ≤ ((2 * (a + s + p) + 3 : ℕ) : ℚ) / ((6 : ℕ) : ℚ) := by positivity
  rw [← Int.natCast_floor_eq_floor h0, Nat.floor_div_nat, Nat.floor_natCast]

theorem overallScore_le (a s p : Nat) (ha : a ≤ 100) (hs : s ≤ 100) (hp : p ≤ 100) :
    overallScore a s p ≤ 100 := by
  unfold overallScore
  omega

/-! ## Helper lemmas: the issue types each rule can emit -/

theorem altRule_types (doc : Document) :
    ((altRule doc).issues.map Issue.type).Sublist ["Missing Alt Text"] := by
  unfold altRule
  dsimp only
  split <;> simp [RuleResult.none]

theorem labelRule_types (doc : Document) :
    ((labelRule doc).issues.map Issue.type).Sublist ["Form Accessibility"] := by
  unfold labelRule
  dsimp only
  split <;> simp [RuleResult.none]

theorem headingRule_types (doc : Document) :
    ((headingRule doc).issues.map Issue.type).Sublist ["Heading Hierarchy"] := by
  unfold headingRule
  split <;> simp [RuleResult.none]

theorem titleRule_types (doc : Document) :
    ((titleRule doc).issues.map Issue.type).Sublist ["Page Title"] := by
  unfold titleRule
  dsimp only
  split_ifs <;> simp [RuleResult.none]

theorem metaRule_types (doc : Document) :
    ((metaRule doc).issues.map Issue.type).Sublist ["Meta Description"] := by
  unfold metaRule
  split <;> (try dsimp only) <;> (try split_ifs) <;> simp [metaMissing, RuleResult.none]

theorem h1Rule_types (doc : Document) :
    ((h1Rule doc).issues.map Issue.type).Sublist ["H1 Heading"] := by
  unfold h1Rule
  dsimp only
  split_ifs <;> simp [RuleResult.none]

theorem largeImagesRule_types (doc : Document) :
    ((largeImagesRule doc).issues.map Issue.type).Sublist ["Image Optimization"] := by
  unfold largeImagesRule
  dsimp only
  split <;> simp [RuleResult.none]

theorem lazyRule_types (doc : Document) :
    ((lazyRule doc).issues.map Issue.type).Sublist ["Lazy Loading"] := by
  unfold lazyRule
  dsimp only
  split <;> simp [RuleResult.none]

theorem externalResourcesRule_types (doc : Document) :
    ((externalResourcesRule doc).issues.map Issue.type).Sublist ["External Resources"] := by
  unfold externalResourcesRule
  dsimp only
  split <;> simp [RuleResult.none]

theorem inlineStylesRule_types (doc : Document) :
    ((inlineStylesRule doc).issues.map Issue.type).Sublist ["Inline Styles"] := by
  unfold inlineStylesRule
  split <;> simp [RuleResult.none]

theorem externalLinksRule_types (doc : Document) (hostname : String) :
    ((externalLinksRule doc hostname).issues.map Issue.type).Sublist ["External Links"] := by
  unfold externalLinksRule
  dsimp only
  split <;> simp [RuleResult.none]

theorem analyzeAccessibility_issue_types (doc : Document) :
    ((analyzeAccessibility doc).issues.map Issue.type).Sublist
      ["Missing Alt Text", "Form Accessibility", "Heading Hierarchy"] := by
  have h := List.Sublist.append
    (List.Sublist.append (altRule_types doc) (labelRule_types doc)) (headingRule_types doc)
  simpa [analyzeAccessibility, List.map_append] using h

theorem analyzeSEO_issue_types (doc : Document) :
    ((analyzeSEO doc).issues.map Issue.type).Sublist
      ["Page Title", "Meta Description", "H1 Heading"] := by
  have h := List.Sublist.append
    (List.Sublist.append (titleRule_types doc) (metaRule_types doc)) (h1Rule_types doc)
  simpa [analyzeSEO, List.map_append] using h

theorem analyzePerformance_issue_types (doc : Document) (hostname : String) :
    ((analyzePerformance doc hostname).issues.map Issue.type).Sublist
      ["Image Optimization", "Lazy Loading", "External Resources", "Inline Styles",
        "External Links"] := by
  have h := List.Sublist.append (List.Sublist.append (List.Sublist.append
    (List.Sublist.append (largeImagesRule_types doc) (lazyRule_types doc))
    (externalResourcesRule_types doc)) (inlineStylesRule_types doc))
    (externalLinksRule_types doc hostname)
  simpa [analyzePerformance, List.map_append] using h

/-! ## Claim theorems -/

/-- C1: every category score is an integer in [0,100] (scores are naturals,
so the lower bound is the clamp built into the type), and the overall score
equals the round-half-up arithmetic mean of the three category scores and
therefore also lies in [0,100]. -/
theorem overall_score_spec (doc : Document) (hostname url timestamp : String) :
    ((performQualityAnalysis doc hostname url timestamp).accessibility.score ≤ 100
      ∧ (performQualityAnalysis doc hostname url timestamp).seo.score ≤ 100
      ∧ (performQualityAnalysis doc hostname url timestamp).performance.score ≤ 100)
    ∧ (((performQualityAnalysis doc hostname url timestamp).score : ℤ)
        = round ((((performQualityAnalysis doc hostname url timestamp).accessibility.score : ℚ)
            + ((performQualityAnalysis doc hostname url timestamp).seo.score : ℚ)
            + ((performQualityAnalysis doc hostname url timestamp).performance.score : ℚ)) / 3))
    ∧ (performQualityAnalysis doc hostname url timestamp).score ≤ 100 := by
  refine ⟨⟨(analyzeAccessibility_score_bounds doc).2, (analyzeSEO_score_bounds doc).2,
    (analyzePerformance_score_bounds doc hostname).2⟩, ?_, ?_⟩
  · exact overallScore_eq_round _ _ _
  · exact overallScore_le _ _ _ (analyzeAccessibility_score_bounds doc).2
      (analyzeSEO_score_bounds doc).2 (analyzePerformance_score_bounds doc hostname).2

/-- C8: the analysis is a pure function of the document snapshot, the
hostname and the clock; two runs differing only in the clock reading
produce the same result except for `pageInfo.timestamp`. -/
theorem analysis_deterministic (doc : Document) (hostname url t₁ t₂ : String) :
    performQualityAnalysis doc hostname url t₁
      = { performQualityAnalysis doc hostname url t₂ with
          pageInfo := { (performQualityAnalysis doc hostname url t₂).pageInfo with
                        timestamp := t₁ } } := rfl

/-- C9: per-analyzer deductions are bounded by the sum of the per-rule caps
(55, 65, 60), so the category scores are at least 45, 35 and 40, and the
`Math.max(0, score)` floor clamp never binds: each score equals
`100 - deduction` exactly. -/
theorem deduction_bounds (doc : Document) (hostname : String) :
    ((altRule doc).deduction + (labelRule doc).deduction + (headingRule doc).deduction ≤ 55
      ∧ (titleRule doc).deduction + (metaRule doc).deduction + (h1Rule doc).deduction ≤ 65
      ∧ (largeImagesRule doc).deduction + (lazyRule doc).deduction
          + (externalResourcesRule doc).deduction + (inlineStylesRule doc).deduction
          + (externalLinksRule doc hostname).deduction ≤ 60)
    ∧ (45 ≤ (analyzeAccessibility doc).score ∧ 35 ≤ (analyzeSEO doc).score
        ∧ 40 ≤ (analyzePerformance doc hostname).score)
    ∧ (((analyzeAccessibility doc).score : ℤ)
          = 100 - ((altRule doc).deduction + (labelRule doc).deduction
              + (headingRule doc).deduction : Nat)
        ∧ ((analyzeSEO doc).score : ℤ)
          = 100 - ((titleRule doc).deduction + (metaRule doc).deduction
              + (h1Rule doc).deduction : Nat)
        ∧ ((analyzePerformance doc hostname).score : ℤ)
          = 100 - ((largeImagesRule doc).deduction + (lazyRule doc).deduction
              + (externalResourcesRule doc).deduction + (inlineStylesRule doc).deduction
              + (externalLinksRule doc hostname).deduction : Nat)) := by
  have h1 := altRule_deduction_le doc
  have h2 := labelRule_deduction_le doc
  have h3 := headingRule_deduction_le doc
  have h4 := titleRule_deduction_le doc
  have h5 := metaRule_deduction_le doc
  have h6 := h1Rule_deduction_le doc
  have h7 := largeImagesRule_deduction_le doc
  have h8 := lazyRule_deduction_le doc
  have h9 := externalResourcesRule_deduction_le doc
  have h10 := inlineStylesRule_deduction_le doc
  have h11 := externalLinksRule_deduction_le doc hostname
  rw [analyzeAccessibility_score, analyzeSEO_score, analyzePerformance_score]
  refine ⟨⟨?_, ?_, ?_⟩, ⟨?_, ?_, ?_⟩, ?_, ?_, ?_⟩ <;> omega

/-- C10: each analyzer emits at most one issue per rule, in fixed rule
order: the issue-type sequence is a sublist of the per-analyzer rule-type
list, and the issue counts are bounded by 3, 3 and 5. -/
theorem issue_order (doc : Document) (hostname : String) :
    (((analyzeAccessibility doc).issues.map Issue.type).Sublist
        ["Missing Alt Text", "Form Accessibility", "Heading Hierarchy"]
      ∧ (analyzeAccessibility doc).issues.length ≤ 3)
    ∧ (((analyzeSEO doc).issues.map Issue.type).Sublist
        ["Page Title", "Meta Description", "H1 Heading"]
      ∧ (analyzeSEO doc).issues.length ≤ 3)
    ∧ (((analyzePerformance doc hostname).issues.map Issue.type).Sublist
        ["Image Optimization", "Lazy Loading", "External Resources", "Inline Styles",
          "External Links"]
      ∧ (analyzePerformance doc hostname).issues.length ≤ 5) := by
  have ha := analyzeAccessibility_issue_types doc
  have hs := analyzeSEO_issue_types doc
  have hp := analyzePerformance_issue_types doc hostname
  have la := ha.length_le
  have ls := hs.length_le
  have lp := hp.length_le
  simp only [List.length_map] at la ls lp
  exact ⟨⟨ha, by simpa using la⟩, ⟨hs, by simpa using ls⟩, ⟨hp, by simpa using lp⟩⟩

/-! ## Helper lemmas: filtering issues by type -/

theorem filter_type_eq_nil {l : List Issue} {s t : String}
    (h : (l.map Issue.type).Sublist [s]) (hne : t ≠ s) :
    l.filter (fun i => i.type = t) = [] := by
  rw [List.filter_eq_nil_iff]
  intro a ha
  have hmem : a.type ∈ l.map Issue.type := List.mem_map_of_mem _ ha
  have hs := h.subset hmem
  simp only [List.mem_singleton] at hs
  simp [hs, Ne.symm hne]

theorem filter_type_eq_self {l : List Issue} {s : String}
    (h : (l.map Issue.type).Sublist [s]) :
    l.filter (fun i => i.type = s) = l := by
  rw [List.filter_eq_self]
  intro a ha
  have hmem : a.type ∈ l.map Issue.type := List.mem_map_of_mem _ ha
  have hs := h.subset hmem
  simp only [List.mem_singleton] at hs
  simp [hs]

/-- C2: the alt-text rule emits exactly one "Missing Alt Text" issue
(severity high, message with the count, element = first offender's src or
the fallback literal) and deducts `min 25 (3n)` exactly when the document
has `n ≥ 1` images whose alt text is absent, empty or whitespace-only, and
appends exactly one suggestion; nothing happens for `n = 0`.  The spec's
worked examples: 2 such images give accessibility score 94, ten give 75. -/
theorem alt_text_rule_spec (doc : Document) :
    ((analyzeAccessibility doc).issues.filter (fun i => i.type = "Missing Alt Text")
      = if (imagesWithoutAlt doc).length > 0 then
          [{ type := "Missing Alt Text"
           , message := toString (imagesWithoutAlt doc).length ++ " images missing alt text"
           , severity := .high
           , element := some (jsOr ((imagesWithoutAlt doc).head?.map Img.src) "Unknown image") }]
        else [])
    ∧ ((analyzeAccessibility doc).suggestions.count
        "Add descriptive alt text to all images for screen readers"
      = if (imagesWithoutAlt doc).length > 0 then 1 else 0)
    ∧ ((altRule doc).deduction
      = if (imagesWithoutAlt doc).length > 0 then
          min 25 ((imagesWithoutAlt doc).length * 3) else 0)
    ∧ (analyzeAccessibility altDoc2).score = 94
    ∧ (analyzeAccessibility altDoc10).score = 75 := by
  refine ⟨?_, ?_, ?_, by decide, by decide⟩
  · have hl := filter_type_eq_nil (labelRule_types doc)
      (show ("Missing Alt Text" : String) ≠ "Form Accessibility" by decide)
    have hh := filter_type_eq_nil (headingRule_types doc)
      (show ("Missing Alt Text" : String) ≠ "Heading Hierarchy" by decide)
    have ha := filter_type_eq_self (altRule_types doc)
    have hsplit : (analyzeAccessibility doc).issues.filter
        (fun i => i.type = "Missing Alt Text") = (altRule doc).issues := by
      simp [analyzeAccessibility, List.filter_append, hl, hh, ha]
    rw [hsplit]
    unfold altRule
    dsimp only
    split <;> simp_all [RuleResult.none]
  · unfold analyzeAccessibility altRule labelRule colorSuggestions focusSuggestions headingRule
    dsimp only
    split_ifs <;>
      simp [RuleResult.none, List.count_append, List.count_cons, List.count_nil]
  · unfold altRule
    dsimp only
    split <;> simp_all [RuleResult.none]

/-- C3: the SEO title rule fires at most one of its three branches: an
empty/whitespace title gives "Page has no title" (high, −25); otherwise a
title shorter than 10 gives "Page title is too short" (medium, −15);
otherwise one longer than 60 gives "Page title is too long" (low, −5);
otherwise (length 10–60 inclusive) no Page Title issue and no deduction.
Boundary witnesses: lengths 10 and 60 are silent, 9 and 61 are flagged,
the empty title deducts 25. -/
theorem title_rule_spec (doc : Document) :
    ((analyzeSEO doc).issues.filter (fun i => i.type = "Page Title")
      = if doc.title = "" || jsTrim doc.title = "" then
          [{ type := "Page Title", message := "Page has no title"
           , severity := .high, element := Option.none }]
        else if doc.title.length < 10 then
          [{ type := "Page Title", message := "Page title is too short"
           , severity := .medium, element := Option.none }]
        else if doc.title.length > 60 then
          [{ type := "Page Title", message := "Page title is too long"
           , severity := .low, element := Option.none }]
        else [])
    ∧ ((titleRule doc).deduction
      = if doc.title = "" || jsTrim doc.title = "" then 25
        else if doc.title.length < 10 then 15
        else if doc.title.length > 60 then 5
        else 0)
    ∧ (analyzeSEO (titleDoc 10)).issues.filter (fun i => i.type = "Page Title") = []
    ∧ (analyzeSEO (titleDoc 60)).issues.filter (fun i => i.type = "Page Title") = []
    ∧ ((analyzeSEO (titleDoc 9)).issues.filter
        (fun i => i.type = "Page Title")).map Issue.message = ["Page title is too short"]
    ∧ ((analyzeSEO (titleDoc 61)).issues.filter
        (fun i => i.type = "Page Title")).map Issue.message = ["Page title is too long"]
    ∧ ((analyzeSEO (titleDoc 0)).issues.filter
        (fun i => i.type = "Page Title")).map Issue.message = ["Page has no title"]
    ∧ (titleRule (titleDoc 0)).deduction = 25 := by
  refine ⟨?_, ?_, by decide, by decide, by decide, by decide, by decide, by decide⟩
  · have hm := filter_type_eq_nil (metaRule_types doc)
      (show ("Page Title" : String) ≠ "Meta Description" by decide)
    have hh := filter_type_eq_nil (h1Rule_types doc)
      (show ("Page Title" : String) ≠ "H1 Heading" by decide)
    have ht := filter_type_eq_self (titleRule_types doc)
    have hsplit : (analyzeSEO doc).issues.filter (fun i => i.type = "Page Title")
        = (titleRule doc).issues := by
      simp [analyzeSEO, List.filter_append, hm, hh, ht]
    rw [hsplit]
    unfold titleRule
    dsimp only
    split_ifs <;> simp_all [RuleResult.none]
  · unfold titleRule
    dsimp only
    split_ifs <;> simp_all [RuleResult.none]

/-- C4 counterexample: a `meta[name="description"]` element that is present
with an (empty) `content` attribute.  The claim says an empty content
attribute (length 0 < 120) deducts 10 as "too short"; the code's guard
`!metaDescription.getAttribute('content')` treats the empty string as
falsy, so the missing branch fires instead: message "Missing meta
description" and deduction 20, not 10. -/
theorem meta_rule_claim_false :
    emptyContentMetaDoc.metaDescription = some (some "")
    ∧ ((analyzeSEO emptyContentMetaDoc).issues.filter
        (fun i => i.type = "Meta Description")).map Issue.message
      = ["Missing meta description"]
    ∧ (metaRule emptyContentMetaDoc).deduction = 20
    ∧ (metaRule emptyContentMetaDoc).deduction ≠ 10 := by decide

/-- C4 amended: the meta-description rule deducts 20 ("Missing meta
description", high) when there is no `meta[name=description]` element, or
its `content` attribute is absent **or empty**; when the content attribute
is non-empty, length < 120 deducts 10 as "too short", length > 160 deducts
5 as "too long", and a length in [120,160] yields no issue.  Boundary
witnesses: lengths 120 and 160 are silent, 119 and 161 are flagged, and
the absent-element, absent-attribute and empty-attribute cases all deduct
20. -/
theorem meta_rule_spec_amended (doc : Document) :
    ((analyzeSEO doc).issues.filter (fun i => i.type = "Meta Description")
      = match doc.metaDescription with
        | Option.none =>
          [{ type := "Meta Description", message := "Missing meta description"
           , severity := .high, element := Option.none }]
        | some contentAttr =>
          if !truthy contentAttr then
            [{ type := "Meta Description", message := "Missing meta description"
             , severity := .high, element := Option.none }]
          else if (contentAttr.getD "").length < 120 then
            [{ type := "Meta Description", message := "Meta description is too short"
             , severity := .medium, element := Option.none }]
          else if (contentAttr.getD "").length > 160 then
            [{ type := "Meta Description", message := "Meta description is too long"
             , severity := .low, element := Option.none }]
          else [])
    ∧ ((metaRule doc).deduction
      = match doc.metaDescription with
        | Option.none => 20
        | some contentAttr =>
          if !truthy contentAttr then 20
          else if (contentAttr.getD "").length < 120 then 10
          else if (contentAttr.getD "").length > 160 then 5
          else 0)
    ∧ (analyzeSEO (metaDoc 120)).issues.filter (fun i => i.type = "Meta Description") = []
    ∧ (analyzeSEO (metaDoc 160)).issues.filter (fun i => i.type = "Meta Description") = []
    ∧ ((analyzeSEO (metaDoc 119)).issues.filter
        (fun i => i.type = "Meta Description")).map Issue.message
      = ["Meta description is too short"]
    ∧ (metaRule (metaDoc 119)).deduction = 10
    ∧ ((analyzeSEO (metaDoc 161)).issues.filter
        (fun i => i.type = "Meta Description")).map Issue.message
      = ["Meta description is too long"]
    ∧ (metaRule (metaDoc 161)).deduction = 5
    ∧ (metaRule noMetaDoc).deduction = 20
    ∧ (metaRule noContentMetaDoc).deduction = 20
    ∧ (metaRule emptyContentMetaDoc).deduction = 20 := by
  refine ⟨?_, ?_, by decide, by decide, by decide, by decide, by decide, by decide,
    by decide, by decide, by decide⟩
  · have ht := filter_type_eq_nil (titleRule_types doc)
      (show ("Meta Description" : String) ≠ "Page Title" by decide)
    have hh := filter_type_eq_nil (h1Rule_types doc)
      (show ("Meta Description" : String) ≠ "H1 Heading" by decide)
    have hm := filter_type_eq_self (metaRule_types doc)
    have hsplit : (analyzeSEO doc).issues.filter (fun i => i.type = "Meta Description")
        = (metaRule doc).issues := by
      simp [analyzeSEO, List.filter_append, ht, hh, hm]
    rw [hsplit]
    unfold metaRule
    rcases hmd : doc.metaDescription with _ | c <;> simp only [hmd] <;>
      (try dsimp only) <;> (try split_ifs) <;> simp_all [metaMissing, RuleResult.none]
  · unfold metaRule
    rcases hmd : doc.metaDescription with _ | c <;> simp only [hmd] <;>
      (try dsimp only) <;> (try split_ifs) <;> simp_all [metaMissing, RuleResult.none]

/-- C5 counterexample: four images whose `loading` attribute is present but
empty.  The claim says an image whose loading attribute is present with any
value — including the empty string — is not counted, so no Lazy Loading
issue may fire; the code's `!img.getAttribute('loading')` treats `""` as
falsy and counts all four, emitting the issue and deducting 10. -/
theorem lazy_rule_claim_false :
    (emptyLoadingDoc.images.filter (fun img => img.loading = Option.none)).length = 0
    ∧ ((analyzePerformance emptyLoadingDoc "example.com").issues.filter
        (fun i => i.type = "Lazy Loading")).map Issue.message
      = ["4 images without lazy loading"]
    ∧ (analyzePerformance emptyLoadingDoc "example.com").score = 90 := by decide

/-- C5 amended: the performance analyzer counts the images whose `loading`
attribute is absent **or empty** (a non-empty value of any kind is not
counted); if that count is strictly greater than 3 it emits one Lazy
Loading issue (low, count in the message) and deducts a flat 10
independent of the count, and for a count of 3 or fewer it emits nothing.
Witnesses: 3 attribute-less images are silent, 4 and 40 both score 90. -/
theorem lazy_rule_spec_amended (doc : Document) (hostname : String) :
    (imagesWithoutLoading doc
      = doc.images.filter (fun img => img.loading = Option.none || img.loading = some ""))
    ∧ ((analyzePerformance doc hostname).issues.filter (fun i => i.type = "Lazy Loading")
      = if (imagesWithoutLoading doc).length > 3 then
          [{ type := "Lazy Loading"
           , message := toString (imagesWithoutLoading doc).length
               ++ " images without lazy loading"
           , severity := .low, element := Option.none }]
        else [])
    ∧ ((lazyRule doc).deduction = if (imagesWithoutLoading doc).length > 3 then 10 else 0)
    ∧ (analyzePerformance (lazyDoc 3) "example.com").issues.filter
        (fun i => i.type = "Lazy Loading") = []
    ∧ (analyzePerformance (lazyDoc 4) "example.com").score = 90
    ∧ (analyzePerformance (lazyDoc 40) "example.com").score = 90 := by
  refine ⟨?_, ?_, ?_, by decide, by decide, by decide⟩
  · unfold imagesWithoutLoading
    refine List.filter_congr ?_
    intro img _
    rcases img.loading with _ | v
    · simp [truthy]
    · by_cases hv : v = "" <;> simp [truthy, hv]
  · have h1 := filter_type_eq_nil (largeImagesRule_types doc)
      (show ("Lazy Loading" : String) ≠ "Image Optimization" by decide)
    have h3 := filter_type_eq_nil (externalResourcesRule_types doc)
      (show ("Lazy Loading" : String) ≠ "External Resources" by decide)
    have h4 := filter_type_eq_nil (inlineStylesRule_types doc)
      (show ("Lazy Loading" : String) ≠ "Inline Styles" by decide)
    have h5 := filter_type_eq_nil (externalLinksRule_types doc hostname)
      (show ("Lazy Loading" : String) ≠ "External Links" by decide)
    have h2 := filter_type_eq_self (lazyRule_types doc)
    have hsplit : (analyzePerformance doc hostname).issues.filter
        (fun i => i.type = "Lazy Loading") = (lazyRule doc).issues := by
      simp [analyzePerformance, List.filter_append, h1, h2, h3, h4, h5]
    rw [hsplit]
    unfold lazyRule
    dsimp only
    split <;> simp_all [RuleResult.none]
  · unfold lazyRule
    dsimp only
    split <;> simp_all [RuleResult.none]

/-! ## Helper lemmas: the heading-level walk -/

theorem skipFold_true (levels : List Nat) (prev : Nat) :
    (levels.foldl skipStep (true, prev)).1 = true := by
  induction levels generalizing prev with
  | nil => rfl
  | cons l ls ih => simpa [skipStep] using ih l

theorem skipFold_false (levels : List Nat) (prev : Nat) :
    (levels.foldl skipStep (false, prev)).1
      = !decide (List.Chain' (fun a b => b ≤ a + 1) (prev :: levels)) := by
  induction levels generalizing prev with
  | nil => simp
  | cons l ls ih =>
    by_cases h : l > prev + 1
    · have hfold : ((l :: ls).foldl skipStep (false, prev)).1 = true := by
        simpa [skipStep, h] using skipFold_true ls l
      rw [hfold]
      have : ¬ List.Chain' (fun a b => b ≤ a + 1) (prev :: l :: ls) := by
        rw [List.chain'_cons]
        omega
      simp [this]
    · have hfold : ((l :: ls).foldl skipStep (false, prev)).1
          = (ls.foldl skipStep (false, l)).1 := by
        simp [skipStep, h]
      rw [hfold, ih l]
      have : List.Chain' (fun a b => b ≤ a + 1) (prev :: l :: ls)
          ↔ List.Chain' (fun a b => b ≤ a + 1) (l :: ls) := by
        rw [List.chain'_cons]
        constructor
        · exact fun hc => hc.2
        · exact fun hc => ⟨by omega, hc⟩
      simp [this]

/-- The `forEach` walk reports a skip exactly when the sequence
`0 :: levels` is not "chained": some entry exceeds its predecessor by more
than 1 (the virtual predecessor of the first heading being level 0). -/
theorem hasSkippedLevel_iff (levels : List Nat) :
    hasSkippedLevel levels
      = !decide (List.Chain' (fun a b => b ≤ a + 1) (0 :: levels)) :=
  skipFold_false levels 0

/-- C6 counterexample: a document whose only heading is an `h2`.  No
heading exceeds the immediately preceding *heading*'s level (there is no
pair of headings at all), so the claim requires no Heading Hierarchy
issue; the code starts its walk at `previousLevel = 0`, sees `2 > 0 + 1`,
and flags the document, deducting 10. -/
theorem heading_rule_claim_false :
    loneH2Doc.headings = [2]
    ∧ List.Chain' (fun a b => b ≤ a + 1) loneH2Doc.headings
    ∧ ((analyzeAccessibility loneH2Doc).issues.filter
        (fun i => i.type = "Heading Hierarchy")
      = [{ type := "Heading Hierarchy", message := "Heading levels are not in proper order"
         , severity := .medium, element := Option.none }])
    ∧ (analyzeAccessibility loneH2Doc).score = 90 := by
  exact ⟨rfl, List.chain'_singleton 2, by decide, by decide⟩

/-- C6 amended: the heading-hierarchy rule deducts a flat 10 and emits
exactly one fixed Issue ("Heading Hierarchy", medium, "Heading levels are
not in proper order") exactly when, walking `0 :: headings` (the virtual
level before the first heading is 0, so a document opening with a heading
of level ≥ 2 also counts as a skip), some entry exceeds its predecessor by
more than 1; it flags at most once however many skips exist, and documents
with no headings, same-level siblings or decreasing levels (and a first
heading of level 1) produce no issue and no deduction.  Witnesses:
[1,3] scores 90, [2] scores 90, [1,2,2] and [3,2,1]-without-skip cases:
[1,2,2] scores 100. -/
theorem heading_rule_spec_amended (doc : Document) :
    ((analyzeAccessibility doc).issues.filter (fun i => i.type = "Heading Hierarchy")
      = if List.Chain' (fun a b => b ≤ a + 1) (0 :: doc.headings) then []
        else
          [{ type := "Heading Hierarchy", message := "Heading levels are not in proper order"
           , severity := .medium, element := Option.none }])
    ∧ ((headingRule doc).deduction
      = if List.Chain' (fun a b => b ≤ a + 1) (0 :: doc.headings) then 0 else 10)
    ∧ (analyzeAccessibility (headingsDoc [1, 3])).score = 90
    ∧ (analyzeAccessibility (headingsDoc [1, 2, 2])).score = 100
    ∧ (analyzeAccessibility (headingsDoc [1, 2, 3, 2, 1])).score = 100
    ∧ (analyzeAccessibility (headingsDoc [])).score = 100 := by
  have hIss : (headingRule doc).issues
      = if List.Chain' (fun a b => b ≤ a + 1) (0 :: doc.headings) then []
        else
          [{ type := "Heading Hierarchy", message := "Heading levels are not in proper order"
           , severity := .medium, element := Option.none }] := by
    unfold headingRule
    by_cases hc : List.Chain' (fun a b => b ≤ a + 1) (0 :: doc.headings)
    · have hskip : hasSkippedLevel doc.headings = false := by
        rw [hasSkippedLevel_iff]
        simp [hc]
      simp [hskip, hc, RuleResult.none]
    · have hskip : hasSkippedLevel doc.headings = true := by
        rw [hasSkippedLevel_iff]
        simp [hc]
      have hne : doc.headings ≠ [] := by
        intro h
        rw [h] at hskip
        exact absurd hskip (by decide)
      have hlen : doc.headings.length > 0 := List.length_pos.mpr hne
      simp [hskip, hlen, hc]
  have hDed : (headingRule doc).deduction
      = if List.Chain' (fun a b => b ≤ a + 1) (0 :: doc.headings) then 0 else 10 := by
    unfold headingRule
    by_cases hc : List.Chain' (fun a b => b ≤ a + 1) (0 :: doc.headings)
    · have hskip : hasSkippedLevel doc.headings = false := by
        rw [hasSkippedLevel_iff]
        simp [hc]
      simp [hskip, hc, RuleResult.none]
    · have hskip : hasSkippedLevel doc.headings = true := by
        rw [hasSkippedLevel_iff]
        simp [hc]
      have hne : doc.headings ≠ [] := by
        intro h
        rw [h] at hskip
        exact absurd hskip (by decide)
      have hlen : doc.headings.length > 0 := List.length_pos.mpr hne
      simp [hskip, hlen, hc]
  refine ⟨?_, hDed, by decide, by decide, by decide, by decide⟩
  have ha := filter_type_eq_nil (altRule_types doc)
    (show ("Heading Hierarchy" : String) ≠ "Missing Alt Text" by decide)
  have hl := filter_type_eq_nil (labelRule_types doc)
    (show ("Heading Hierarchy" : String) ≠ "Form Accessibility" by decide)
  have hh := filter_type_eq_self (headingRule_types doc)
  have hsplit : (analyzeAccessibility doc).issues.filter
      (fun i => i.type = "Heading Hierarchy") = (headingRule doc).issues := by
    simp [analyzeAccessibility, List.filter_append, ha, hl, hh]
  rw [hsplit, hIss]

/-- A string starting with "http" is non-empty. -/
theorem ne_empty_of_strStartsWith_http {s : String} (h : strStartsWith s "http" = true) :
    s ≠ "" := by
  intro he
  rw [he] at h
  exact absurd h (by decide)

/-- C7 counterexample.  First input: hostname "example.com" and one
rel-less anchor to `http://evil.example.net/?ref=example.com` — the href is
absolute and its host differs from the page's host, so the claim requires
an External Links issue with deduction 1; the code tests
`href.includes(hostname)`, the query string contains "example.com", and
nothing fires.  Second input: an anchor to a foreign host with an empty
`rel` attribute — it has a rel attribute, so the claim's count is 0, yet
the code's `!link.getAttribute('rel')` counts it and deducts 1. -/
theorem external_links_claim_false :
    substrAnchorDoc.anchors
      = [⟨some "http://evil.example.net/?ref=example.com", Option.none⟩]
    ∧ ((analyzePerformance substrAnchorDoc "example.com").issues.filter
        (fun i => i.type = "External Links") = [])
    ∧ (analyzePerformance substrAnchorDoc "example.com").score = 100
    ∧ (externalLinksRule substrAnchorDoc "example.com").deduction = 0
    ∧ emptyRelAnchorDoc.anchors = [⟨some "http://other.example.net/x", some ""⟩]
    ∧ ((analyzePerformance emptyRelAnchorDoc "example.com").issues.filter
        (fun i => i.type = "External Links")).map Issue.message
      = ["1 external links without rel attributes"]
    ∧ (analyzePerformance emptyRelAnchorDoc "example.com").score = 99 := by
  refine ⟨rfl, by decide, by decide, by decide, rfl, by decide, by decide⟩

/-- C7 amended: an anchor is counted exactly when its href starts with
"http" and does **not contain the current hostname as a substring** (a
plain `includes` test, not a host comparison), and it has **no rel
attribute or an empty one**; if the count `n` is positive the analyzer
emits one External Links issue (low, "`<n>` external links without rel
attributes") and deducts `min 10 n`, and deducts nothing for `n = 0`.
Witness: 12 such anchors hit the cap, scoring 90. -/
theorem external_links_spec_amended (doc : Document) (hostname : String) :
    (externalLinksWithoutRel doc hostname
      = doc.anchors.filter (fun a =>
          (match a.href with
           | Option.none => false
           | some h => strStartsWith h "http" && !hasSubstr h hostname)
          && (a.rel = Option.none || a.rel = some "")))
    ∧ ((analyzePerformance doc hostname).issues.filter (fun i => i.type = "External Links")
      = if (externalLinksWithoutRel doc hostname).length > 0 then
          [{ type := "External Links"
           , message := toString (externalLinksWithoutRel doc hostname).length
               ++ " external links without rel attributes"
           , severity := .low, element := Option.none }]
        else [])
    ∧ ((externalLinksRule doc hostname).deduction
      = if (externalLinksWithoutRel doc hostname).length > 0 then
          min 10 (externalLinksWithoutRel doc hostname).length else 0)
    ∧ (analyzePerformance (extLinksDoc 12) "example.com").score = 90 := by
  refine ⟨?_, ?_, ?_, by decide⟩
  · unfold externalLinksWithoutRel externalLinks
    rw [List.filter_filter, List.filter_filter]
    refine List.filter_congr ?_
    intro a _
    rcases a.href with _ | h
    · simp [attrStartsWith, truthy]
    · by_cases hs : strStartsWith h "http" = true
      · have hne : h ≠ "" := ne_empty_of_strStartsWith_http hs
        rcases a.rel with _ | r
        · simp [attrStartsWith, truthy, hs, hne, Bool.and_comm, Bool.and_left_comm]
        · by_cases hr : r = "" <;>
            simp [attrStartsWith, truthy, hs, hne, hr, Bool.and_comm, Bool.and_left_comm]
      · simp [attrStartsWith, truthy, hs]
  · have h1 := filter_type_eq_nil (largeImagesRule_types doc)
      (show ("External Links" : String) ≠ "Image Optimization" by decide)
    have h2 := filter_type_eq_nil (lazyRule_types doc)
      (show ("External Links" : String) ≠ "Lazy Loading" by decide)
    have h3 := filter_type_eq_nil (externalResourcesRule_types doc)
      (show ("External Links" : String) ≠ "External Resources" by decide)
    have h4 := filter_type_eq_nil (inlineStylesRule_types doc)
      (show ("External Links" : String) ≠ "Inline Styles" by decide)
    have h5 := filter_type_eq_self (externalLinksRule_types doc hostname)
    have hsplit : (analyzePerformance doc hostname).issues.filter
        (fun i => i.type = "External Links") = (externalLinksRule doc hostname).issues := by
      simp [analyzePerformance, List.filter_append, h1, h2, h3, h4, h5]
    rw [hsplit]
    unfold externalLinksRule
    dsimp only
    split <;> simp_all [RuleResult.none]
  · unfold externalLinksRule
    dsimp only
    split <;> simp_all [RuleResult.none]


end WebQualityAnalyzer
